import Mathlib

/-!
Shallow embedding of the TOTP second-factor subsystem of
`src/api/core/two_factor/authenticator.rs` (vaultwarden), together with
proofs of the specified properties.

The embedding models:
- the base32 codec used at the boundary (`data_encoding::BASE32`,
  RFC 4648 with padding, canonical/strict decoding);
- the `TwoFactor` record and its database as an explicit list of records;
- `validate_totp_code` (the verification engine), `activate_authenticator`
  (enrollment) and `disable_authenticator` (revocation) as pure functions
  that take and return the database state explicitly;
- the external one-time-code primitive `totp_custom::<Sha1>` (totp_lite
  crate) abstractly: the HMAC-SHA1 digest computation is a parameter `g`,
  while the time-step arithmetic (`counter = time / step`) is explicit.

Machine integers: Rust `i64` values are modelled as `Int` (with `Int.tdiv`
for Rust's truncating `/`), the `as u64` cast as reduction modulo `2 ^ 64`.
-/

set_option linter.unusedVariables false

/-- Decidable equality for `Except`, used to evaluate the embedded operations
on concrete inputs. -/
def exceptDecEq {ε α : Type} [DecidableEq ε] [DecidableEq α] :
    (a b : Except ε α) → Decidable (a = b)
  | .ok a, .ok b => if h : a = b then .isTrue (by rw [h]) else .isFalse (by simp [h])
  | .ok _, .error _ => .isFalse (by simp)
  | .error _, .ok _ => .isFalse (by simp)
  | .error e, .error f => if h : e = f then .isTrue (by rw [h]) else .isFalse (by simp [h])

instance {ε α : Type} [DecidableEq ε] [DecidableEq α] : DecidableEq (Except ε α) :=
  exceptDecEq

/-- Value of one base32 alphabet character (RFC 4648 alphabet `A`-`Z`, `2`-`7`),
`none` for any character outside the alphabet (including lowercase and `=`). -/
def b32val (c : Char) : Option Nat :=
  if 'A' ≤ c ∧ c ≤ 'Z' then some (c.toNat - 'A'.toNat)
  else if '2' ≤ c ∧ c ≤ '7' then some (c.toNat - '2'.toNat + 26)
  else none

/-- `data_encoding::BASE32.decode`: RFC 4648 base32 with `=` padding, strict
canonical decoding. The input length must be a multiple of 8; padding occurs
only at the end with one of the lengths 0, 1, 3, 4, 6; every non-padding
character must be in the alphabet; the unused trailing bits of the last
partial group must be zero. Returns the decoded bytes (each `< 256`). -/
def base32decode (s : String) : Option (List Nat) :=
  let cs := s.data
  let n := cs.length
  if n % 8 ≠ 0 then none
  else
    let p := (cs.reverse.takeWhile (fun c => c = '=')).length
    let dataChars := cs.take (n - p)
    if dataChars.any (fun c => (b32val c).isNone) then none
    else if ¬ (p = 0 ∨ p = 1 ∨ p = 3 ∨ p = 4 ∨ p = 6) then none
    else
      let d := n - p
      let acc := dataChars.foldl (fun a c => a * 32 + (b32val c).getD 0) 0
      let k := 5 * d / 8
      let t := 5 * d - 8 * k
      if acc % 2 ^ t ≠ 0 then none
      else some ((List.range k).map (fun i => acc / 2 ^ (t + 8 * (k - 1 - i)) % 256))

/-- The `TwoFactor` database record (db/models): owner, factor kind (`atype`,
an `i32` discriminant), enabled flag, the secret in its base32 text form
(`data`), and the last consumed time-step (`last_used`, an `i64`). -/
structure TwoFactor where
  user_id : String
  atype : Int
  enabled : Bool
  data : String
  last_used : Int
deriving Repr, DecidableEq

/-- Modelled from the spec: the record constructor `TwoFactor::new` lives in
the db/models module, outside this file's source. Per the spec the factor is
created with `enabled` true ("true once activation succeeds", and the record
is only persisted by a successful verification) and `lastUsedStep` at "a
sentinel below any real time-step"; real Unix time-steps are positive, so the
sentinel is 0. -/
def TwoFactor.new (uid : String) (atype : Int) (data : String) : TwoFactor :=
  ⟨uid, atype, true, data, 0⟩

/-- The `i32` discriminant of `TwoFactorType::Authenticator`. -/
def authenticatorType : Int := 0

/-- `TwoFactor::find_by_user_and_type`: the record for (user, kind), if any. -/
def findByUserAndType (db : List TwoFactor) (uid : String) (t : Int) : Option TwoFactor :=
  db.find? (fun tf => tf.user_id == uid && tf.atype == t)

/-- `TwoFactor::save`: upsert of the record for its (user, kind) key.
Modelled from the spec invariant "At most one Factor exists per (user,
kind)": an existing record for the key is replaced, otherwise the record is
appended. -/
def saveTF (db : List TwoFactor) (tf : TwoFactor) : List TwoFactor :=
  if db.any (fun r => r.user_id == tf.user_id && r.atype == tf.atype) then
    db.map (fun r => if r.user_id == tf.user_id && r.atype == tf.atype then tf else r)
  else db ++ [tf]

/-- `TwoFactor::delete`: removes the record for the factor's (user, kind). -/
def deleteTF (db : List TwoFactor) (tf : TwoFactor) : List TwoFactor :=
  db.filter (fun r => !(r.user_id == tf.user_id && r.atype == tf.atype))

/-- `TwoFactor::find_by_user`: all factor records of a user, of any kind. -/
def findByUser (db : List TwoFactor) (uid : String) : List TwoFactor :=
  db.filter (fun r => r.user_id == uid)

/-- Rust `as u64` on an `i64` value: two's-complement reinterpretation,
i.e. reduction modulo `2 ^ 64`. -/
def castU64 (x : Int) : Nat := (x % (2 : Int) ^ 64).toNat

/-- The external one-time-code primitive `totp_custom::<Sha1>(step, digits,
secret, time)` of the totp_lite crate (not part of this source file).
Modelled from the spec: the code is "the 6-digit HMAC-SHA1-based one-time
code for the 30-second epoch boundary", i.e. a function of the secret and of
the counter `time / step`; the HMAC-SHA1 digest-truncate-format computation
is abstracted as the parameter `g`. -/
def totp_custom (g : List Nat → Nat → String) (step : Nat) (digits : Nat)
    (secret : List Nat) (time : Nat) : String :=
  g secret (time / step)

/-- The code generated for a given 30-second time-step: the one-time code for
the epoch boundary at `s * 30`. -/
def codeForStep (g : List Nat → Nat → String) (secret : List Nat) (s : Nat) : String :=
  totp_custom g 30 6 secret (s * 30)

/-- Verification errors of `validate_totp_code` / `validate_totp_code_str`. -/
inductive VError where
  /-- "Invalid TOTP secret": the secret text failed base32 decoding. -/
  | invalidSecret : VError
  /-- "TOTP code is not a number" (login-path caller check). -/
  | invalidCodeFormat : VError
  /-- A code matched but its time-step was not newer than `last_used`
  (logged distinctly as "... has already been used!"). -/
  | replayedCode : VError
  /-- No offset in the drift window matched. -/
  | invalidCode : VError
deriving Repr, DecidableEq

/-- The message surfaced to the caller for each error. The two code
rejections use the identical `err!` text (modulo the server time and client
IP, which are those of the one current call). -/
def surfacedMessage : VError → String
  | .invalidSecret => "Invalid TOTP secret"
  | .invalidCodeFormat => "TOTP code is not a number"
  | .replayedCode => "Invalid TOTP code!"
  | .invalidCode => "Invalid TOTP code!"

/-- Rust `i64::from` on a `bool`: 1 for `true`, 0 for `false`. -/
def boolToI64 (b : Bool) : Int := cond b 1 0

/-- The offset range `-steps..=steps` of the drift-window scan, in ascending
order. -/
def stepOffsets (steps : Int) : List Int :=
  (List.range (2 * steps.toNat + 1)).map (fun i => (i : Int) - steps)

/-- The body of the `for step in -steps..=steps` loop of
`validate_totp_code`: for each offset, compare the generated code for
`time = (current_timestamp + step * 30) as u64` with the submitted code;
on a match, accept with `time_step = current_timestamp / 30 + step` if it is
newer than `last_used`, else reject as replayed; if no offset matches,
reject as invalid. -/
def scanSteps (g : List Nat → Nat → String) (decoded_secret : List Nat)
    (totp_code : String) (current_timestamp : Int) (lastUsed : Int) :
    List Int → Except VError Int
  | [] => .error .invalidCode
  | step :: rest =>
    let time_step := Int.tdiv current_timestamp 30 + step
    let time := castU64 (current_timestamp + step * 30)
    let generated := totp_custom g 30 6 decoded_secret time
    if generated = totp_code ∧ time_step > lastUsed then .ok time_step
    else if generated = totp_code ∧ time_step ≤ lastUsed then .error .replayedCode
    else scanSteps g decoded_secret totp_code current_timestamp lastUsed rest

/-- `validate_totp_code`: decode the secret (rejecting non-base32 text),
fetch the user's authenticator record (or construct a fresh one holding this
secret), set `steps` to 0 when time drift is administratively disabled and
to 1 otherwise, and scan the drift window. On acceptance the record is saved
with `last_used` set to the accepted time-step; every rejection leaves the
database unchanged. Returns the verification outcome and the database. -/
def validate_totp_code (g : List Nat → Nat → String) (db : List TwoFactor)
    (user_id : String) (totp_code : String) (secret : String)
    (current_timestamp : Int) (drift_disabled : Bool) :
    Except VError Int × List TwoFactor :=
  match base32decode secret with
  | none => (.error .invalidSecret, db)
  | some decoded_secret =>
    let twofactor :=
      match findByUserAndType db user_id authenticatorType with
      | some tf => tf
      | none => TwoFactor.new user_id authenticatorType secret
    let steps : Int := boolToI64 (!drift_disabled)
    match scanSteps g decoded_secret totp_code current_timestamp twofactor.last_used
        (stepOffsets steps) with
    | .ok time_step => (.ok time_step, saveTF db { twofactor with last_used := time_step })
    | .error e => (.error e, db)

/-- `validate_totp_code_str`: the login-path wrapper, which first rejects a
submitted code that is not purely numeric. (Rust's `char::is_numeric` is
Unicode-numeric; submitted TOTP codes are ASCII, where it coincides with
`Char.isDigit`.) -/
def validate_totp_code_str (g : List Nat → Nat → String) (db : List TwoFactor)
    (user_id : String) (totp_code : String) (secret : String)
    (current_timestamp : Int) (drift_disabled : Bool) :
    Except VError Int × List TwoFactor :=
  if ¬ totp_code.data.all Char.isDigit then (.error .invalidCodeFormat, db)
  else validate_totp_code g db user_id totp_code secret current_timestamp drift_disabled

/-- Errors of `activate_authenticator`. -/
inductive AError where
  /-- The proof-of-identity (password or OTP) check failed. -/
  | invalidPassword : AError
  /-- "Invalid totp secret": the key is not valid base32. -/
  | invalidTotpSecret : AError
  /-- "Invalid key length": the key does not decode to 20 bytes. -/
  | invalidKeyLength : AError
  /-- A propagated verification error. -/
  | verify (e : VError) : AError
deriving Repr, DecidableEq

/-- ASCII uppercasing of the key text, `String.to_uppercase()` at the call
site of `validate_totp_code` inside `activate_authenticator` (the key at
that point is valid base32 text, on which Unicode and ASCII uppercasing
agree). -/
def strUpper (s : String) : String := String.mk (s.data.map Char.toUpper)

/-- `activate_authenticator`: validate the proof of identity, decode the key
as base32 and require exactly 20 decoded bytes, then validate the submitted
token against the uppercased key via `validate_totp_code` (which persists
the factor on success). On success the response carries the key as supplied.
The recovery-code issuance and event logging are external collaborators with
no effect on the factor store. Returns the outcome and the database. -/
def activate_authenticator (g : List Nat → Nat → String) (db : List TwoFactor)
    (user_id : String) (key : String) (token : String) (auth_ok : Bool)
    (current_timestamp : Int) (drift_disabled : Bool) :
    Except AError String × List TwoFactor :=
  if ¬ auth_ok then (.error .invalidPassword, db)
  else
    match base32decode key with
    | none => (.error .invalidTotpSecret, db)
    | some decoded_key =>
      if decoded_key.length ≠ 20 then (.error .invalidKeyLength, db)
      else
        match validate_totp_code g db user_id token (strUpper key) current_timestamp
            drift_disabled with
        | (.ok _, db') => (.ok key, db')
        | (.error e, db') => (.error (.verify e), db')

/-- Errors of `disable_authenticator`. -/
inductive DError where
  /-- "Invalid password": the master-password check failed. -/
  | invalidPassword : DError
  /-- "TOTP key ... does not match recorded value, cannot deactivate". -/
  | mismatchedKey : DError
deriving Repr, DecidableEq

/-- Outcome of `disable_authenticator`: the verdict, the resulting database,
whether the `UserDisabled2fa` event was logged (i.e. a record was deleted),
and whether the external 2FA-policy enforcement was invoked. -/
structure DisableResult where
  res : Except DError Unit
  db : List TwoFactor
  eventLogged : Bool
  policyInvoked : Bool
deriving Repr, DecidableEq

/-- `disable_authenticator`: check the master password; look up the record
for (user, kind); if present, delete it when the provided key equals the
stored secret text and fail otherwise; if absent, fall through. After the
(possibly skipped) deletion, invoke the external 2FA-policy enforcement
exactly when the user has no factor of any kind left. Errors return before
that check. -/
def disable_authenticator (db : List TwoFactor) (user_id : String)
    (password_ok : Bool) (type_ : Int) (key : String) : DisableResult :=
  if ¬ password_ok then ⟨.error .invalidPassword, db, false, false⟩
  else
    match findByUserAndType db user_id type_ with
    | some twofactor =>
      if twofactor.data = key then
        let db' := deleteTF db twofactor
        ⟨.ok (), db', true, (findByUser db' user_id).isEmpty⟩
      else ⟨.error .mismatchedKey, db, false, false⟩
    | none => ⟨.ok (), db, false, (findByUser db user_id).isEmpty⟩

/-! ### Helper lemmas -/

theorem stepOffsets_zero : stepOffsets 0 = [0] := by decide

theorem stepOffsets_one : stepOffsets 1 = [-1, 0, 1] := by decide

/-- The generated code at drift offset `o` from a timestamp `30 * b + r` in
the i64 range is the code for time-step `b + o`. -/
theorem gen_at_offset (g : List Nat → Nat → String) (ds : List Nat) (b r o : Int)
    (hb : 2 ≤ b) (hr0 : 0 ≤ r) (hr1 : r < 30) (ho : -1 ≤ o) (ho2 : o ≤ 2)
    (hub : 30 * b + r < 2 ^ 63) :
    totp_custom g 30 6 ds (castU64 (30 * b + r + o * 30)) = g ds (b + o).toNat := by
  have h1 : castU64 (30 * b + r + o * 30) = (30 * b + r + o * 30).toNat := by
    unfold castU64
    omega
  rw [h1]
  unfold totp_custom
  congr 1
  have h2 : (30 * b + r + o * 30).toNat = 30 * (b + o).toNat + r.toNat := by omega
  rw [h2]
  omega

/-- The time-step computed at drift offset `o` from timestamp `30 * b + r`. -/
theorem tdiv_at_offset (b r o : Int) (hb : 0 ≤ b) (hr0 : 0 ≤ r) (hr1 : r < 30) :
    Int.tdiv (30 * b + r) 30 + o = b + o := by
  have h : Int.tdiv (30 * b + r) 30 = b := by
    rw [Int.tdiv_eq_ediv (by omega) (by omega)]
    omega
  rw [h]

/-- The scan is decided by the first offset whose generated code equals the
submitted code: no match at all yields `invalidCode`; otherwise the first
matching offset accepts exactly when its time-step exceeds `last_used` and
rejects as replayed otherwise. Later offsets are never examined. -/
theorem scanSteps_eq_find (g : List Nat → Nat → String) (ds : List Nat)
    (code : String) (ts lu : Int) (l : List Int) :
    scanSteps g ds code ts lu l =
      match l.find? (fun step => totp_custom g 30 6 ds (castU64 (ts + step * 30)) == code) with
      | none => .error .invalidCode
      | some step =>
        if lu < Int.tdiv ts 30 + step then .ok (Int.tdiv ts 30 + step)
        else .error .replayedCode := by
  induction l with
  | nil => rfl
  | cons a l ih =>
    rw [scanSteps, List.find?]
    by_cases h : totp_custom g 30 6 ds (castU64 (ts + a * 30)) = code
    · by_cases hlt : lu < Int.tdiv ts 30 + a
      · simp [h, hlt]
      · simp [h, hlt]
    · have hf : (totp_custom g 30 6 ds (castU64 (ts + a * 30)) == code) = false := by
        simp [h]
      simp [hf, h, ih]

/-- The drift window of time-steps examined around base step `b`. -/
def windowOf (dd : Bool) (b : Int) : List Int :=
  if dd then [b] else [b - 1, b, b + 1]

/-- Characterization of `validate_totp_code` over the drift window, for a
decodable secret and a timestamp `30 * b + r` in the realistic range: the
outcome is decided by the first time-step `s` in the ascending window whose
generated code equals the submitted code — acceptance with `new last_used =
s` if `s` is newer than the record's `last_used`, immediate replay rejection
otherwise — and is `invalidCode` when no step matches. -/
theorem validate_window (g : List Nat → Nat → String) (db : List TwoFactor)
    (uid : String) (code : String) (secret : String) (ds : List Nat) (b r : Int)
    (dd : Bool) (hdec : base32decode secret = some ds) (hb : 2 ≤ b)
    (hr0 : 0 ≤ r) (hr1 : r < 30) (hub : 30 * b + r < 2 ^ 63) :
    validate_totp_code g db uid code secret (30 * b + r) dd =
      (match (windowOf dd b).find? (fun s => g ds s.toNat == code) with
      | none => (.error .invalidCode, db)
      | some s =>
        match findByUserAndType db uid authenticatorType with
        | some tf =>
          if tf.last_used < s then (.ok s, saveTF db { tf with last_used := s })
          else (.error .replayedCode, db)
        | none =>
          if (TwoFactor.new uid authenticatorType secret).last_used < s then
            (.ok s, saveTF db { TwoFactor.new uid authenticatorType secret with last_used := s })
          else (.error .replayedCode, db)) := by
  have hg : ∀ o : Int, -1 ≤ o → o ≤ 2 →
      totp_custom g 30 6 ds (castU64 (30 * b + r + o * 30)) = g ds (b + o).toNat :=
    fun o h1 h2 => gen_at_offset g ds b r o hb hr0 hr1 h1 h2 hub
  have ht : ∀ o : Int, Int.tdiv (30 * b + r) 30 + o = b + o :=
    fun o => tdiv_at_offset b r o (by omega) hr0 hr1
  have htz : Int.tdiv (30 * b + r) 30 = b := by
    have h := ht 0
    omega
  have e1 : b + -1 = b - 1 := by omega
  have e2 : b + 0 = b := by omega
  unfold validate_totp_code
  rw [hdec]
  cases dd with
  | true =>
    show (match scanSteps g ds code (30 * b + r)
        (match findByUserAndType db uid authenticatorType with
          | some tf => tf
          | none => TwoFactor.new uid authenticatorType secret).last_used
        (stepOffsets (boolToI64 (!true))) with
      | Except.ok time_step =>
        (Except.ok time_step,
          saveTF db { (match findByUserAndType db uid authenticatorType with
            | some tf => tf
            | none => TwoFactor.new uid authenticatorType secret) with last_used := time_step })
      | Except.error e => (Except.error e, db)) = _
    rw [show stepOffsets (boolToI64 (!true)) = [0] from rfl, scanSteps_eq_find]
    rw [show windowOf true b = [b] from rfl]
    simp only [List.find?]
    rw [hg 0 (by omega) (by omega), e2]
    cases hf : findByUserAndType db uid authenticatorType with
    | some tf =>
      by_cases h0 : g ds b.toNat = code
      · have hbt : (g ds b.toNat == code) = true := beq_iff_eq.mpr h0
        simp only [hbt]
        by_cases hlt : tf.last_used < b
        · simp [hlt, htz, e1, e2]
        · simp [hlt, htz, e1, e2]
      · have hbf : (g ds b.toNat == code) = false := beq_eq_false_iff_ne.mpr h0
        simp only [hbf]
    | none =>
      by_cases h0 : g ds b.toNat = code
      · have hbt : (g ds b.toNat == code) = true := beq_iff_eq.mpr h0
        simp only [hbt]
        by_cases hlt : (TwoFactor.new uid authenticatorType secret).last_used < b
        · simp [hlt, htz, e1, e2]
        · simp [hlt, htz, e1, e2]
      · have hbf : (g ds b.toNat == code) = false := beq_eq_false_iff_ne.mpr h0
        simp only [hbf]
  | false =>
    show (match scanSteps g ds code (30 * b + r)
        (match findByUserAndType db uid authenticatorType with
          | some tf => tf
          | none => TwoFactor.new uid authenticatorType secret).last_used
        (stepOffsets (boolToI64 (!false))) with
      | Except.ok time_step =>
        (Except.ok time_step,
          saveTF db { (match findByUserAndType db uid authenticatorType with
            | some tf => tf
            | none => TwoFactor.new uid authenticatorType secret) with last_used := time_step })
      | Except.error e => (Except.error e, db)) = _
    rw [show stepOffsets (boolToI64 (!false)) = [-1, 0, 1] from stepOffsets_one, scanSteps_eq_find]
    rw [show windowOf false b = [b - 1, b, b + 1] from rfl]
    simp only [List.find?]
    rw [hg (-1) (by omega) (by omega), hg 0 (by omega) (by omega), hg 1 (by omega) (by omega),
      e1, e2]
    cases hf : findByUserAndType db uid authenticatorType with
    | some tf =>
      by_cases h1 : g ds (b - 1).toNat = code
      · have hb1 : (g ds (b - 1).toNat == code) = true := beq_iff_eq.mpr h1
        simp only [hb1]
        by_cases hlt : tf.last_used < b - 1
        · simp [hlt, htz, e1, e2]
        · simp [hlt, htz, e1, e2]
      · have hb1 : (g ds (b - 1).toNat == code) = false := beq_eq_false_iff_ne.mpr h1
        simp only [hb1]
        by_cases h2 : g ds b.toNat = code
        · have hb2 : (g ds b.toNat == code) = true := beq_iff_eq.mpr h2
          simp only [hb2]
          by_cases hlt : tf.last_used < b
          · simp [hlt, htz, e1, e2]
          · simp [hlt, htz, e1, e2]
        · have hb2 : (g ds b.toNat == code) = false := beq_eq_false_iff_ne.mpr h2
          simp only [hb2]
          by_cases h3 : g ds (b + 1).toNat = code
          · have hb3 : (g ds (b + 1).toNat == code) = true := beq_iff_eq.mpr h3
            simp only [hb3]
            by_cases hlt : tf.last_used < b + 1
            · simp [hlt, htz, e1, e2]
            · simp [hlt, htz, e1, e2]
          · have hb3 : (g ds (b + 1).toNat == code) = false := beq_eq_false_iff_ne.mpr h3
            simp only [hb3]
    | none =>
      by_cases h1 : g ds (b - 1).toNat = code
      · have hb1 : (g ds (b - 1).toNat == code) = true := beq_iff_eq.mpr h1
        simp only [hb1]
        by_cases hlt : (TwoFactor.new uid authenticatorType secret).last_used < b - 1
        · simp [hlt, htz, e1, e2]
        · simp [hlt, htz, e1, e2]
      · have hb1 : (g ds (b - 1).toNat == code) = false := beq_eq_false_iff_ne.mpr h1
        simp only [hb1]
        by_cases h2 : g ds b.toNat = code
        · have hb2 : (g ds b.toNat == code) = true := beq_iff_eq.mpr h2
          simp only [hb2]
          by_cases hlt : (TwoFactor.new uid authenticatorType secret).last_used < b
          · simp [hlt, htz, e1, e2]
          · simp [hlt, htz, e1, e2]
        · have hb2 : (g ds b.toNat == code) = false := beq_eq_false_iff_ne.mpr h2
          simp only [hb2]
          by_cases h3 : g ds (b + 1).toNat = code
          · have hb3 : (g ds (b + 1).toNat == code) = true := beq_iff_eq.mpr h3
            simp only [hb3]
            by_cases hlt : (TwoFactor.new uid authenticatorType secret).last_used < b + 1
            · simp [hlt, htz, e1, e2]
            · simp [hlt, htz, e1, e2]
          · have hb3 : (g ds (b + 1).toNat == code) = false := beq_eq_false_iff_ne.mpr h3
            simp only [hb3]

/-- A scan only ever accepts a time-step strictly above `last_used` (the
acceptance guard `time_step > twofactor.last_used`). -/
theorem scanSteps_ok_gt (g : List Nat → Nat → String) (ds : List Nat) (code : String)
    (ts lu : Int) (l : List Int) (s : Int)
    (h : scanSteps g ds code ts lu l = .ok s) : lu < s := by
  induction l with
  | nil =>
    rw [scanSteps] at h
    cases h
  | cons a l ih =>
    rw [scanSteps] at h
    by_cases h1 : totp_custom g 30 6 ds (castU64 (ts + a * 30)) = code ∧
        Int.tdiv ts 30 + a > lu
    · rw [if_pos h1] at h
      cases h
      exact h1.2
    · rw [if_neg h1] at h
      by_cases h2 : totp_custom g 30 6 ds (castU64 (ts + a * 30)) = code ∧
          Int.tdiv ts 30 + a ≤ lu
      · rw [if_pos h2] at h
        cases h
      · rw [if_neg h2] at h
        exact ih h

/-- Every rejection of `validate_totp_code` leaves the database unchanged. -/
theorem validate_error_db (g : List Nat → Nat → String) (db : List TwoFactor)
    (uid : String) (code : String) (secret : String) (ts : Int) (dd : Bool)
    (e : VError) (db' : List TwoFactor)
    (h : validate_totp_code g db uid code secret ts dd = (.error e, db')) : db' = db := by
  unfold validate_totp_code at h
  cases hdec : base32decode secret with
  | none =>
    rw [hdec] at h
    simp only [Prod.mk.injEq] at h
    exact h.2.symm
  | some ds =>
    rw [hdec] at h
    simp only [] at h
    cases hscan : scanSteps g ds code ts
        (match findByUserAndType db uid authenticatorType with
          | some tf => tf
          | none => TwoFactor.new uid authenticatorType secret).last_used
        (stepOffsets (boolToI64 (!dd))) with
    | ok s =>
      rw [hscan] at h
      simp only [Prod.mk.injEq] at h
      cases h.1
    | error e' =>
      rw [hscan] at h
      simp only [Prod.mk.injEq] at h
      exact h.2.symm

/-- Shape of a successful `validate_totp_code`: the returned step is strictly
above the record's `last_used` (or above the fresh record's sentinel 0), and
the database is updated by saving exactly that record with `last_used` set to
the returned step. -/
theorem validate_ok_shape (g : List Nat → Nat → String) (db : List TwoFactor)
    (uid : String) (code : String) (secret : String) (ts : Int) (dd : Bool)
    (s : Int) (db' : List TwoFactor)
    (h : validate_totp_code g db uid code secret ts dd = (.ok s, db')) :
    match findByUserAndType db uid authenticatorType with
    | some tf => tf.last_used < s ∧ db' = saveTF db { tf with last_used := s }
    | none => 0 < s ∧
        db' = saveTF db { TwoFactor.new uid authenticatorType secret with last_used := s } := by
  unfold validate_totp_code at h
  cases hdec : base32decode secret with
  | none =>
    rw [hdec] at h
    simp at h
  | some ds =>
    rw [hdec] at h
    simp only [] at h
    cases hf : findByUserAndType db uid authenticatorType with
    | some tf =>
      rw [hf] at h
      simp only [] at h
      cases hscan : scanSteps g ds code ts tf.last_used (stepOffsets (boolToI64 (!dd))) with
      | ok s' =>
        rw [hscan] at h
        simp only [Prod.mk.injEq, Except.ok.injEq] at h
        obtain ⟨h1, h2⟩ := h
        rw [← h1]
        exact ⟨scanSteps_ok_gt g ds code ts tf.last_used _ s' hscan, h2.symm⟩
      | error e' =>
        rw [hscan] at h
        simp at h
    | none =>
      rw [hf] at h
      simp only [] at h
      cases hscan : scanSteps g ds code ts (TwoFactor.new uid authenticatorType secret).last_used
          (stepOffsets (boolToI64 (!dd))) with
      | ok s' =>
        rw [hscan] at h
        simp only [Prod.mk.injEq, Except.ok.injEq] at h
        obtain ⟨h1, h2⟩ := h
        rw [← h1]
        exact ⟨scanSteps_ok_gt g ds code ts
          (TwoFactor.new uid authenticatorType secret).last_used _ s' hscan, h2.symm⟩
      | error e' =>
        rw [hscan] at h
        simp at h

/-- A record found by `findByUserAndType` is in the database and carries the
looked-up key. -/
theorem findByUserAndType_some (db : List TwoFactor) (uid : String) (t : Int)
    (tf : TwoFactor) (h : findByUserAndType db uid t = some tf) :
    tf ∈ db ∧ tf.user_id = uid ∧ tf.atype = t := by
  unfold findByUserAndType at h
  refine ⟨List.mem_of_find?_eq_some h, ?_⟩
  have h2 := List.find?_some h
  simp only [Bool.and_eq_true, beq_iff_eq] at h2
  exact h2

/-- After saving a record whose key already occurs in the database, the
lookup of that key returns the saved record. -/
theorem find_saveTF (db : List TwoFactor) (tf tf' : TwoFactor)
    (hu : tf.user_id = tf'.user_id) (hta : tf.atype = tf'.atype)
    (hfind : findByUserAndType db tf'.user_id tf'.atype = some tf) :
    findByUserAndType (saveTF db tf') tf'.user_id tf'.atype = some tf' := by
  unfold findByUserAndType at hfind ⊢
  unfold saveTF
  have hany : db.any (fun r => r.user_id == tf'.user_id && r.atype == tf'.atype) = true := by
    have hm := List.mem_of_find?_eq_some hfind
    have hp := List.find?_some hfind
    exact List.any_eq_true.mpr ⟨tf, hm, hp⟩
  rw [if_pos hany]
  clear hany hu hta
  induction db with
  | nil => cases hfind
  | cons a db ih =>
    by_cases hm : (a.user_id == tf'.user_id && a.atype == tf'.atype) = true
    · rw [List.map_cons, if_pos hm]
      exact List.find?_cons_of_pos _ (by simp)
    · rw [List.find?_cons_of_neg (p := fun tf => tf.user_id == tf'.user_id && tf.atype == tf'.atype) db hm] at hfind
      rw [List.map_cons, if_neg hm,
        List.find?_cons_of_neg (p := fun r : TwoFactor => r.user_id == tf'.user_id && r.atype == tf'.atype) _ hm]
      exact ih hfind

/-- Deletion only removes records. -/
theorem deleteTF_subset (db : List TwoFactor) (tf r : TwoFactor)
    (h : r ∈ deleteTF db tf) : r ∈ db :=
  List.mem_of_mem_filter h

/-- After deleting a factor, the lookup of its key fails. -/
theorem find_deleteTF (db : List TwoFactor) (uid : String) (t : Int) (tf : TwoFactor)
    (hu : tf.user_id = uid) (hta : tf.atype = t) :
    findByUserAndType (deleteTF db tf) uid t = none := by
  unfold findByUserAndType deleteTF
  rw [List.find?_eq_none]
  intro r hr
  have hp := List.of_mem_filter hr
  simp only [Bool.not_eq_true', Bool.and_eq_false_iff] at hp
  simp only [Bool.and_eq_true, beq_iff_eq, not_and]
  intro h1 h2
  rw [hu, hta] at hp
  rcases hp with hp | hp
  · exact absurd (beq_iff_eq.mpr h1) (by rw [hp]; intro hc; cases hc)
  · exact absurd (beq_iff_eq.mpr h2) (by rw [hp]; intro hc; cases hc)

/-- Sanity of the base32 codec model: `"ME======"` decodes to the single
byte of `"a"`; 32 alphabet characters decode to 20 bytes; non-canonical
trailing bits, lowercase input, and a length that is not a multiple of 8 are
rejected. -/
theorem base32decode_sanity :
    base32decode "ME======" = some [97] ∧
    base32decode "AAAAAAAAAAAAAAAAAAAAAAAAAAAAAAAA" = some (List.replicate 20 0) ∧
    base32decode "MF======" = none ∧
    base32decode "me======" = none ∧
    base32decode "ABC" = none := by
  refine ⟨by decide, by decide, by decide, by decide, by decide⟩

/-! ### Claim theorems -/

/-- C5 counterexample: the secret `"ME======"` is valid base32 but decodes to
a single byte, not 20; contrary to the claim, `validate_totp_code` (the
verification path) does not reject it as an invalid secret format — it
proceeds to code comparison and here even accepts the submitted code,
persisting a fresh factor for the 1-byte secret. Only the activation path
checks the decoded length. -/
theorem c5_counterexample :
    base32decode "ME======" = some [97] ∧
    validate_totp_code (fun _ _ => "123456") [] "u" "123456" "ME======" 3000 false =
      (.ok 99, [⟨"u", 0, true, "ME======", 99⟩]) := by
  constructor
  · decide
  · decide

/-- C5 (amended): activation rejects a non-base32 key, and a key that does
not decode to exactly 20 bytes, before any verification; the verification
operation itself rejects a non-base32 secret before any comparison, but does
not check the decoded length. In each rejection the database is unchanged. -/
theorem c5_secret_format :
    (∀ (g : List Nat → Nat → String) (db : List TwoFactor) (uid key token : String)
      (ts : Int) (dd : Bool), base32decode key = none →
      activate_authenticator g db uid key token true ts dd = (.error .invalidTotpSecret, db)) ∧
    (∀ (g : List Nat → Nat → String) (db : List TwoFactor) (uid key token : String)
      (ts : Int) (dd : Bool) (dk : List Nat), base32decode key = some dk → dk.length ≠ 20 →
      activate_authenticator g db uid key token true ts dd = (.error .invalidKeyLength, db)) ∧
    (∀ (g : List Nat → Nat → String) (db : List TwoFactor) (uid code secret : String)
      (ts : Int) (dd : Bool), base32decode secret = none →
      validate_totp_code g db uid code secret ts dd = (.error .invalidSecret, db)) := by
  refine ⟨?_, ?_, ?_⟩
  · intro g db uid key token ts dd hdec
    unfold activate_authenticator
    rw [if_neg (by simp), hdec]
  · intro g db uid key token ts dd dk hdec hlen
    unfold activate_authenticator
    rw [if_neg (by simp), hdec]
    simp only []
    rw [if_pos hlen]
  · intro g db uid code secret ts dd hdec
    unfold validate_totp_code
    rw [hdec]

/-- C5 witness: concrete instances of the three rejections — a non-base32
key at activation, a valid-base32 key of decoded length 1 at activation, and
a non-base32 secret at verification. -/
theorem c5_secret_format_witness :
    activate_authenticator (fun _ _ => "1") [] "u" "me======" "1" true 3000 false =
      (.error .invalidTotpSecret, []) ∧
    activate_authenticator (fun _ _ => "1") [] "u" "ME======" "1" true 3000 false =
      (.error .invalidKeyLength, []) ∧
    validate_totp_code (fun _ _ => "1") [] "u" "1" "me======" 3000 false =
      (.error .invalidSecret, []) :=
  ⟨c5_secret_format.1 (fun _ _ => "1") [] "u" "me======" "1" 3000 false (by decide),
   c5_secret_format.2.1 (fun _ _ => "1") [] "u" "ME======" "1" 3000 false [97] (by decide)
     (by decide),
   c5_secret_format.2.2 (fun _ _ => "1") [] "u" "1" "me======" 3000 false (by decide)⟩

/-- C7: disable semantics — with a validated password, a missing factor is a
successful no-op on the store; a present factor with a mismatching key fails
with the mismatched-key error, leaving the factor present and the store
unchanged, with no deletion event; a present factor with the exactly matching
key is deleted (lookup of its key subsequently fails) and the deletion event
is emitted. -/
theorem c7_disable_semantics :
    (∀ (db : List TwoFactor) (uid : String) (t : Int) (key : String),
      findByUserAndType db uid t = none →
      disable_authenticator db uid true t key =
        ⟨.ok (), db, false, (findByUser db uid).isEmpty⟩) ∧
    (∀ (db : List TwoFactor) (uid : String) (t : Int) (key : String) (tf : TwoFactor),
      findByUserAndType db uid t = some tf → tf.data ≠ key →
      disable_authenticator db uid true t key = ⟨.error .mismatchedKey, db, false, false⟩ ∧
      findByUserAndType (disable_authenticator db uid true t key).db uid t = some tf) ∧
    (∀ (db : List TwoFactor) (uid : String) (t : Int) (key : String) (tf : TwoFactor),
      findByUserAndType db uid t = some tf → tf.data = key →
      disable_authenticator db uid true t key =
        ⟨.ok (), deleteTF db tf, true, (findByUser (deleteTF db tf) uid).isEmpty⟩ ∧
      findByUserAndType (deleteTF db tf) uid t = none) := by
  refine ⟨?_, ?_, ?_⟩
  · intro db uid t key hf
    unfold disable_authenticator
    rw [if_neg (by simp), hf]
  · intro db uid t key tf hf hne
    have he : disable_authenticator db uid true t key = ⟨.error .mismatchedKey, db, false, false⟩ := by
      unfold disable_authenticator
      rw [if_neg (by simp), hf]
      simp only []
      rw [if_neg hne]
    exact ⟨he, by rw [he]; exact hf⟩
  · intro db uid t key tf hf heq
    have hkeys := findByUserAndType_some db uid t tf hf
    refine ⟨?_, find_deleteTF db uid t tf hkeys.2.1 hkeys.2.2⟩
    unfold disable_authenticator
    rw [if_neg (by simp), hf]
    simp only []
    rw [if_pos heq]

/-- C7 witness: on the database holding the single factor
`⟨"u", 0, true, "KEY", 5⟩`, a disable for an absent kind succeeds as a no-op,
a disable with the wrong key fails and leaves the factor, and a disable with
the stored key deletes it. -/
theorem c7_disable_semantics_witness :
    disable_authenticator [⟨"u", 0, true, "KEY", 5⟩] "u" true 7 "KEY" =
      ⟨.ok (), [⟨"u", 0, true, "KEY", 5⟩], false, false⟩ ∧
    disable_authenticator [⟨"u", 0, true, "KEY", 5⟩] "u" true 0 "WRONG" =
      ⟨.error .mismatchedKey, [⟨"u", 0, true, "KEY", 5⟩], false, false⟩ ∧
    disable_authenticator [⟨"u", 0, true, "KEY", 5⟩] "u" true 0 "KEY" =
      ⟨.ok (), [], true, true⟩ := by
  refine ⟨?_, ?_, ?_⟩
  · have h := c7_disable_semantics.1 [⟨"u", 0, true, "KEY", 5⟩] "u" 7 "KEY" (by decide)
    rw [h]
    decide
  · have h := (c7_disable_semantics.2.1 [⟨"u", 0, true, "KEY", 5⟩] "u" 0 "WRONG"
      ⟨"u", 0, true, "KEY", 5⟩ (by decide) (by decide)).1
    rw [h]
  · have h := (c7_disable_semantics.2.2 [⟨"u", 0, true, "KEY", 5⟩] "u" 0 "KEY"
      ⟨"u", 0, true, "KEY", 5⟩ (by decide) (by decide)).1
    rw [h]
    decide

/-- C8 counterexample: for a user with no factors at all, a disable call
finds no factor and deletes nothing (no deletion event is logged), yet the
policy-enforcement collaborator is still invoked — contradicting the claim
that it is invoked only as part of a matched deletion. -/
theorem c8_counterexample :
    findByUserAndType [] "u" 0 = none ∧
    disable_authenticator [] "u" true 0 "k" = ⟨.ok (), [], false, true⟩ := by
  constructor
  · decide
  · decide

/-- C8 (amended): the policy-enforcement collaborator is invoked exactly when
the disable call succeeds (with or without a deletion) and the user is left
with zero factors of any kind; it is never invoked on a failed call, and in
particular not when any factor remains. -/
theorem c8_policy_trigger (db : List TwoFactor) (uid : String) (pw : Bool) (t : Int)
    (key : String) :
    (∀ u : Unit, (disable_authenticator db uid pw t key).res = .ok u →
      (disable_authenticator db uid pw t key).policyInvoked =
        (findByUser (disable_authenticator db uid pw t key).db uid).isEmpty) ∧
    (∀ e : DError, (disable_authenticator db uid pw t key).res = .error e →
      (disable_authenticator db uid pw t key).policyInvoked = false) := by
  cases pw with
  | false =>
    constructor
    · intro u hu
      cases hu
    · intro e he
      rfl
  | true =>
    cases hf : findByUserAndType db uid t with
    | none =>
      constructor
      · intro u hu
        unfold disable_authenticator
        rw [if_neg (by simp), hf]
      · intro e he
        unfold disable_authenticator at he
        rw [if_neg (by simp), hf] at he
        cases he
    | some tf =>
      by_cases hd : tf.data = key
      · constructor
        · intro u hu
          unfold disable_authenticator
          rw [if_neg (by simp), hf]
          simp only []
          rw [if_pos hd]
        · intro e he
          unfold disable_authenticator at he
          rw [if_neg (by simp), hf] at he
          simp only [] at he
          rw [if_pos hd] at he
          cases he
      · constructor
        · intro u hu
          unfold disable_authenticator at hu
          rw [if_neg (by simp), hf] at hu
          simp only [] at hu
          rw [if_neg hd] at hu
          cases hu
        · intro e he
          unfold disable_authenticator
          rw [if_neg (by simp), hf]
          simp only []
          rw [if_neg hd]

/-- C8 witness: deleting the only factor of a user triggers the policy check
on the emptied store. -/
theorem c8_policy_trigger_witness :
    (disable_authenticator [⟨"u", 0, true, "KEY", 5⟩] "u" true 0 "KEY").policyInvoked =
      (findByUser (disable_authenticator [⟨"u", 0, true, "KEY", 5⟩] "u" true 0 "KEY").db
        "u").isEmpty :=
  (c8_policy_trigger [⟨"u", 0, true, "KEY", 5⟩] "u" true 0 "KEY").1 () (by decide)

/-- On a successful verification against an existing record, the database is
updated so that the record for the key holds the accepted step (strictly
above its previous `last_used`) with all other fields unchanged. -/
theorem validate_ok_existing (g : List Nat → Nat → String) (db : List TwoFactor)
    (uid code secret : String) (ts : Int) (dd : Bool) (s : Int) (db' : List TwoFactor)
    (tf : TwoFactor) (hf : findByUserAndType db uid authenticatorType = some tf)
    (hv : validate_totp_code g db uid code secret ts dd = (.ok s, db')) :
    tf.last_used < s ∧
      findByUserAndType db' uid authenticatorType = some { tf with last_used := s } := by
  have hs := validate_ok_shape g db uid code secret ts dd s db' hv
  rw [hf] at hs
  obtain ⟨h1, h2⟩ := hs
  refine ⟨h1, ?_⟩
  subst h2
  have hk := findByUserAndType_some db uid authenticatorType tf hf
  have hfind2 : findByUserAndType db ({ tf with last_used := s } : TwoFactor).user_id
      ({ tf with last_used := s } : TwoFactor).atype = some tf := by
    show findByUserAndType db tf.user_id tf.atype = some tf
    rw [hk.2.1, hk.2.2]
    exact hf
  have hres := find_saveTF db tf { tf with last_used := s } rfl rfl hfind2
  rw [← hk.2.1, ← hk.2.2]
  exact hres

/-- The factor store resulting from any disable call contains only records
that were already present. -/
theorem disable_db_subset (db : List TwoFactor) (uid : String) (pw : Bool) (t : Int)
    (key : String) (r : TwoFactor) (hr : r ∈ (disable_authenticator db uid pw t key).db) :
    r ∈ db := by
  revert hr
  cases pw with
  | false =>
    intro hr
    exact hr
  | true =>
    unfold disable_authenticator
    rw [if_neg (by simp)]
    cases hf : findByUserAndType db uid t with
    | none =>
      intro hr
      exact hr
    | some tf =>
      simp only []
      by_cases hd : tf.data = key
      · rw [if_pos hd]
        intro hr
        exact deleteTF_subset db tf r hr
      · rw [if_neg hd]
        intro hr
        exact hr

/-- C4: `last_used` is monotone — a successful verification replaces the
existing record's `last_used` by a strictly greater step and changes nothing
else; a rejected verification changes nothing; a failed activation changes
nothing; and disable never constructs or modifies a record (its resulting
store is a subset of the original). -/
theorem c4_last_used_monotonic :
    (∀ (g : List Nat → Nat → String) (db : List TwoFactor) (uid code secret : String)
      (ts : Int) (dd : Bool) (s : Int) (db' : List TwoFactor) (tf : TwoFactor),
      validate_totp_code g db uid code secret ts dd = (.ok s, db') →
      findByUserAndType db uid authenticatorType = some tf →
      tf.last_used < s ∧
        findByUserAndType db' uid authenticatorType = some { tf with last_used := s }) ∧
    (∀ (g : List Nat → Nat → String) (db : List TwoFactor) (uid code secret : String)
      (ts : Int) (dd : Bool) (e : VError) (db' : List TwoFactor),
      validate_totp_code g db uid code secret ts dd = (.error e, db') → db' = db) ∧
    (∀ (g : List Nat → Nat → String) (db : List TwoFactor) (uid key token : String)
      (ok : Bool) (ts : Int) (dd : Bool) (e : AError) (db' : List TwoFactor),
      activate_authenticator g db uid key token ok ts dd = (.error e, db') → db' = db) ∧
    (∀ (db : List TwoFactor) (uid : String) (pw : Bool) (t : Int) (key : String)
      (r : TwoFactor), r ∈ (disable_authenticator db uid pw t key).db → r ∈ db) := by
  refine ⟨?_, ?_, ?_, ?_⟩
  · intro g db uid code secret ts dd s db' tf hv hf
    exact validate_ok_existing g db uid code secret ts dd s db' tf hf hv
  · intro g db uid code secret ts dd e db' hv
    exact validate_error_db g db uid code secret ts dd e db' hv
  · intro g db uid key token ok ts dd e db' h
    unfold activate_authenticator at h
    cases ok with
    | false =>
      rw [if_pos (by simp)] at h
      simp only [Prod.mk.injEq] at h
      exact h.2.symm
    | true =>
      rw [if_neg (by simp)] at h
      cases hdec : base32decode key with
      | none =>
        rw [hdec] at h
        simp only [Prod.mk.injEq] at h
        exact h.2.symm
      | some dk =>
        rw [hdec] at h
        simp only [] at h
        by_cases hlen : dk.length ≠ 20
        · rw [if_pos hlen] at h
          simp only [Prod.mk.injEq] at h
          exact h.2.symm
        · rw [if_neg hlen] at h
          rcases hval : validate_totp_code g db uid token (strUpper key) ts dd with ⟨res, dbv⟩
          rw [hval] at h
          cases res with
          | ok s =>
            simp only [Prod.mk.injEq] at h
            cases h.1
          | error e' =>
            simp only [Prod.mk.injEq] at h
            rw [← h.2]
            exact validate_error_db g db uid token (strUpper key) ts dd e' dbv hval
  · intro db uid pw t key r
    exact disable_db_subset db uid pw t key r

/-- C4 witness: a concrete accepted verification advances `last_used` from 50
to 100 and changes nothing else; a concrete rejected verification, a failed
activation, and a no-op disable leave the store intact. -/
theorem c4_last_used_monotonic_witness :
    ((50 : Int) < 100 ∧
      findByUserAndType [⟨"u", 0, true, "AAAAAAAAAAAAAAAAAAAAAAAAAAAAAAAA", 100⟩] "u"
        authenticatorType =
        some ⟨"u", 0, true, "AAAAAAAAAAAAAAAAAAAAAAAAAAAAAAAA", 100⟩) ∧
    ([⟨"u", 0, true, "AAAAAAAAAAAAAAAAAAAAAAAAAAAAAAAA", 50⟩] :
      List TwoFactor) = [⟨"u", 0, true, "AAAAAAAAAAAAAAAAAAAAAAAAAAAAAAAA", 50⟩] ∧
    ([] : List TwoFactor) = [] ∧
    (⟨"u", 0, true, "AAAAAAAAAAAAAAAAAAAAAAAAAAAAAAAA", 50⟩ : TwoFactor) ∈
      ([⟨"u", 0, true, "AAAAAAAAAAAAAAAAAAAAAAAAAAAAAAAA", 50⟩] : List TwoFactor) := by
  refine ⟨?_, ?_, ?_, ?_⟩
  · exact c4_last_used_monotonic.1 (fun _ s => toString s)
      [⟨"u", 0, true, "AAAAAAAAAAAAAAAAAAAAAAAAAAAAAAAA", 50⟩] "u" "100"
      "AAAAAAAAAAAAAAAAAAAAAAAAAAAAAAAA" 3000 false 100
      [⟨"u", 0, true, "AAAAAAAAAAAAAAAAAAAAAAAAAAAAAAAA", 100⟩]
      ⟨"u", 0, true, "AAAAAAAAAAAAAAAAAAAAAAAAAAAAAAAA", 50⟩ (by decide) (by decide)
  · exact c4_last_used_monotonic.2.1 (fun _ s => toString s)
      [⟨"u", 0, true, "AAAAAAAAAAAAAAAAAAAAAAAAAAAAAAAA", 50⟩] "u" "x"
      "AAAAAAAAAAAAAAAAAAAAAAAAAAAAAAAA" 3000 false .invalidCode
      [⟨"u", 0, true, "AAAAAAAAAAAAAAAAAAAAAAAAAAAAAAAA", 50⟩] (by decide)
  · exact c4_last_used_monotonic.2.2.1 (fun _ s => toString s) [] "u" "me======" "1"
      true 3000 false .invalidTotpSecret [] (by decide)
  · exact c4_last_used_monotonic.2.2.2
      [⟨"u", 0, true, "AAAAAAAAAAAAAAAAAAAAAAAAAAAAAAAA", 50⟩] "u" true 7 "k"
      ⟨"u", 0, true, "AAAAAAAAAAAAAAAAAAAAAAAAAAAAAAAA", 50⟩ (by decide)

/-- C6 counterexample: a prior factor record with stored secret text
`"OLDSECRET"` exists; activation with a fresh valid 20-byte key succeeds, but
the persisted record still carries the old stored secret — only `last_used`
was advanced. The claim that the persisted factor holds the secret supplied
to this activate call "even when a prior factor record already existed" is
false on the code. -/
theorem c6_counterexample :
    activate_authenticator (fun _ _ => "1") [⟨"u", 0, true, "OLDSECRET", 50⟩] "u"
      "AAAAAAAAAAAAAAAAAAAAAAAAAAAAAAAA" "1" true 3000 false =
      (.ok "AAAAAAAAAAAAAAAAAAAAAAAAAAAAAAAA", [⟨"u", 0, true, "OLDSECRET", 99⟩]) ∧
    "OLDSECRET" ≠ "AAAAAAAAAAAAAAAAAAAAAAAAAAAAAAAA" := by
  constructor
  · decide
  · decide

/-- C6 (amended): a successful activation returns the supplied key and
persists exactly one update: when no record for (user, Authenticator)
existed, a fresh record built from the uppercased supplied key (enabled,
`last_used` strictly above the sentinel 0) is saved; when a prior record
existed, that prior record is saved with only `last_used` advanced (its
stored secret text is the previously stored one, not the newly supplied
key). Every failed activation leaves the database unchanged. -/
theorem c6_activate_postcondition (g : List Nat → Nat → String) (db : List TwoFactor)
    (uid key token : String) (ok : Bool) (ts : Int) (dd : Bool)
    (out : Except AError String) (db' : List TwoFactor)
    (h : activate_authenticator g db uid key token ok ts dd = (out, db')) :
    (∀ e, out = .error e → db' = db) ∧
    (∀ k, out = .ok k → k = key ∧
      ((∃ tf, findByUserAndType db uid authenticatorType = some tf ∧
          ∃ s, tf.last_used < s ∧ db' = saveTF db { tf with last_used := s }) ∨
        (findByUserAndType db uid authenticatorType = none ∧
          ∃ s, 0 < s ∧ db' = saveTF db
            { TwoFactor.new uid authenticatorType (strUpper key) with last_used := s }))) := by
  unfold activate_authenticator at h
  cases ok with
  | false =>
    rw [if_pos (by simp)] at h
    simp only [Prod.mk.injEq] at h
    refine ⟨fun e he => h.2.symm, fun k hk => ?_⟩
    rw [← h.1] at hk
    cases hk
  | true =>
    rw [if_neg (by simp)] at h
    cases hdec : base32decode key with
    | none =>
      rw [hdec] at h
      simp only [Prod.mk.injEq] at h
      refine ⟨fun e he => h.2.symm, fun k hk => ?_⟩
      rw [← h.1] at hk
      cases hk
    | some dk =>
      rw [hdec] at h
      simp only [] at h
      by_cases hlen : dk.length ≠ 20
      · rw [if_pos hlen] at h
        simp only [Prod.mk.injEq] at h
        refine ⟨fun e he => h.2.symm, fun k hk => ?_⟩
        rw [← h.1] at hk
        cases hk
      · rw [if_neg hlen] at h
        rcases hval : validate_totp_code g db uid token (strUpper key) ts dd with ⟨res, dbv⟩
        rw [hval] at h
        cases res with
        | ok s =>
          simp only [Prod.mk.injEq] at h
          refine ⟨fun e he => ?_, fun k hk => ?_⟩
          · rw [← h.1] at he
            cases he
          · rw [← h.1] at hk
            have hkey : k = key := by
              cases hk
              rfl
            refine ⟨hkey, ?_⟩
            have hs := validate_ok_shape g db uid token (strUpper key) ts dd s dbv hval
            cases hf : findByUserAndType db uid authenticatorType with
            | some tf =>
              rw [hf] at hs
              refine Or.inl ⟨tf, rfl, s, hs.1, ?_⟩
              rw [← h.2]
              exact hs.2
            | none =>
              rw [hf] at hs
              refine Or.inr ⟨rfl, s, hs.1, ?_⟩
              rw [← h.2]
              exact hs.2
        | error e' =>
          simp only [Prod.mk.injEq] at h
          refine ⟨fun e he => ?_, fun k hk => ?_⟩
          · rw [← h.2]
            exact validate_error_db g db uid token (strUpper key) ts dd e' dbv hval
          · rw [← h.1] at hk
            cases hk

/-- C6 witness: a concrete successful activation over a prior record —
the returned key is the supplied one and the persisted update is the prior
record with `last_used` advanced. -/
theorem c6_activate_postcondition_witness :
    "AAAAAAAAAAAAAAAAAAAAAAAAAAAAAAAA" = "AAAAAAAAAAAAAAAAAAAAAAAAAAAAAAAA" ∧
    ((∃ tf, findByUserAndType [⟨"u", 0, true, "OLDSECRET", 50⟩] "u" authenticatorType =
        some tf ∧
        ∃ s, tf.last_used < s ∧
          [⟨"u", 0, true, "OLDSECRET", 100⟩] =
            saveTF [⟨"u", 0, true, "OLDSECRET", 50⟩] { tf with last_used := s }) ∨
      (findByUserAndType [⟨"u", 0, true, "OLDSECRET", 50⟩] "u" authenticatorType = none ∧
        ∃ s, 0 < s ∧
          [⟨"u", 0, true, "OLDSECRET", 100⟩] =
            saveTF [⟨"u", 0, true, "OLDSECRET", 50⟩]
              { TwoFactor.new "u" authenticatorType
                  (strUpper "AAAAAAAAAAAAAAAAAAAAAAAAAAAAAAAA") with last_used := s })) :=
  (c6_activate_postcondition (fun _ s => toString s) [⟨"u", 0, true, "OLDSECRET", 50⟩]
    "u" "AAAAAAAAAAAAAAAAAAAAAAAAAAAAAAAA" "100" true 3000 false
    (.ok "AAAAAAAAAAAAAAAAAAAAAAAAAAAAAAAA") [⟨"u", 0, true, "OLDSECRET", 100⟩]
    (by decide)).2 "AAAAAAAAAAAAAAAAAAAAAAAAAAAAAAAA" rfl

/-- C9: persistence ownership — a factor record is first persisted exactly by
a successful verification when none exists (holding the verified secret text
and the accepted step); a rejected verification with no record persists
nothing; every subsequent successful verification only advances `last_used`
of the already-persisted record; and disable never constructs or modifies a
record. -/
theorem c9_persistence_ownership :
    (∀ (g : List Nat → Nat → String) (db : List TwoFactor) (uid code secret : String)
      (ts : Int) (dd : Bool) (s : Int) (db' : List TwoFactor),
      findByUserAndType db uid authenticatorType = none →
      validate_totp_code g db uid code secret ts dd = (.ok s, db') →
      0 < s ∧ db' = saveTF db { TwoFactor.new uid authenticatorType secret with
        last_used := s }) ∧
    (∀ (g : List Nat → Nat → String) (db : List TwoFactor) (uid code secret : String)
      (ts : Int) (dd : Bool) (e : VError) (db' : List TwoFactor),
      findByUserAndType db uid authenticatorType = none →
      validate_totp_code g db uid code secret ts dd = (.error e, db') → db' = db) ∧
    (∀ (g : List Nat → Nat → String) (db : List TwoFactor) (uid code secret : String)
      (ts : Int) (dd : Bool) (s : Int) (db' : List TwoFactor) (tf : TwoFactor),
      findByUserAndType db uid authenticatorType = some tf →
      validate_totp_code g db uid code secret ts dd = (.ok s, db') →
      tf.last_used < s ∧
        findByUserAndType db' uid authenticatorType = some { tf with last_used := s }) ∧
    (∀ (db : List TwoFactor) (uid : String) (pw : Bool) (t : Int) (key : String)
      (r : TwoFactor), r ∈ (disable_authenticator db uid pw t key).db → r ∈ db) := by
  refine ⟨?_, ?_, ?_, fun db uid pw t key r => disable_db_subset db uid pw t key r⟩
  · intro g db uid code secret ts dd s db' hf hv
    have hs := validate_ok_shape g db uid code secret ts dd s db' hv
    rw [hf] at hs
    exact hs
  · intro g db uid code secret ts dd e db' hf hv
    exact validate_error_db g db uid code secret ts dd e db' hv
  · intro g db uid code secret ts dd s db' tf hf hv
    exact validate_ok_existing g db uid code secret ts dd s db' tf hf hv

/-- C9 witness: on an empty store a successful verification creates the
record; with no record a rejection persists nothing; on an existing record a
success only advances `last_used`; a no-op disable leaves membership intact. -/
theorem c9_persistence_ownership_witness :
    ((0 : Int) < 100 ∧
      [⟨"u", 0, true, "AAAAAAAAAAAAAAAAAAAAAAAAAAAAAAAA", 100⟩] =
        saveTF [] { TwoFactor.new "u" authenticatorType
          "AAAAAAAAAAAAAAAAAAAAAAAAAAAAAAAA" with last_used := 100 }) ∧
    ([] : List TwoFactor) = [] ∧
    ((50 : Int) < 101 ∧
      findByUserAndType [⟨"u", 0, true, "AAAAAAAAAAAAAAAAAAAAAAAAAAAAAAAA", 101⟩] "u"
        authenticatorType =
        some ⟨"u", 0, true, "AAAAAAAAAAAAAAAAAAAAAAAAAAAAAAAA", 101⟩) ∧
    (⟨"v", 0, true, "AAAAAAAAAAAAAAAAAAAAAAAAAAAAAAAA", 50⟩ : TwoFactor) ∈
      ([⟨"v", 0, true, "AAAAAAAAAAAAAAAAAAAAAAAAAAAAAAAA", 50⟩] : List TwoFactor) := by
  refine ⟨?_, ?_, ?_, ?_⟩
  · exact c9_persistence_ownership.1 (fun _ s => toString s) [] "u" "100"
      "AAAAAAAAAAAAAAAAAAAAAAAAAAAAAAAA" 3000 false 100
      [⟨"u", 0, true, "AAAAAAAAAAAAAAAAAAAAAAAAAAAAAAAA", 100⟩] (by decide) (by decide)
  · exact c9_persistence_ownership.2.1 (fun _ s => toString s) [] "u" "x"
      "AAAAAAAAAAAAAAAAAAAAAAAAAAAAAAAA" 3000 false .invalidCode [] (by decide) (by decide)
  · exact c9_persistence_ownership.2.2.1 (fun _ s => toString s)
      [⟨"u", 0, true, "AAAAAAAAAAAAAAAAAAAAAAAAAAAAAAAA", 50⟩] "u" "101"
      "AAAAAAAAAAAAAAAAAAAAAAAAAAAAAAAA" 3030 false 101
      [⟨"u", 0, true, "AAAAAAAAAAAAAAAAAAAAAAAAAAAAAAAA", 101⟩]
      ⟨"u", 0, true, "AAAAAAAAAAAAAAAAAAAAAAAAAAAAAAAA", 50⟩ (by decide) (by decide)
  · exact c9_persistence_ownership.2.2.2
      [⟨"v", 0, true, "AAAAAAAAAAAAAAAAAAAAAAAAAAAAAAAA", 50⟩] "v" true 7 "k"
      ⟨"v", 0, true, "AAAAAAAAAAAAAAAAAAAAAAAAAAAAAAAA", 50⟩ (by decide)

/-- The code for time-step `s` is the abstract generator applied to `s`
(the epoch boundary `s * 30` divided by the step width). -/
theorem codeForStep_eq (g : List Nat → Nat → String) (ds : List Nat) (s : Nat) :
    codeForStep g ds s = g ds s := by
  unfold codeForStep totp_custom
  congr 1
  omega

/-- C2: rejection outcomes — every rejection leaves the stored state
unchanged; replay and no-match rejections surface the identical generic
message; if any window step's code equals the submitted code but is not
newer than `last_used`, the call rejects as replayed (the earliest match is
the stalest, so no later offset rescues it); if no window step's code
matches, the call rejects as invalid. -/
theorem c2_rejection_outcomes :
    (∀ (g : List Nat → Nat → String) (db : List TwoFactor) (uid code secret : String)
      (ts : Int) (dd : Bool) (e : VError) (db' : List TwoFactor),
      validate_totp_code g db uid code secret ts dd = (.error e, db') → db' = db) ∧
    surfacedMessage .replayedCode = surfacedMessage .invalidCode ∧
    (∀ (g : List Nat → Nat → String) (db : List TwoFactor) (uid code secret : String)
      (ds : List Nat) (b r : Int) (dd : Bool) (tf : TwoFactor),
      base32decode secret = some ds → 2 ≤ b → 0 ≤ r → r < 30 → 30 * b + r < 2 ^ 63 →
      findByUserAndType db uid authenticatorType = some tf →
      (∃ s, s ∈ windowOf dd b ∧ g ds s.toNat = code ∧ s ≤ tf.last_used) →
      validate_totp_code g db uid code secret (30 * b + r) dd =
        (.error .replayedCode, db)) ∧
    (∀ (g : List Nat → Nat → String) (db : List TwoFactor) (uid code secret : String)
      (ds : List Nat) (b r : Int) (dd : Bool),
      base32decode secret = some ds → 2 ≤ b → 0 ≤ r → r < 30 → 30 * b + r < 2 ^ 63 →
      (∀ s, s ∈ windowOf dd b → g ds s.toNat ≠ code) →
      validate_totp_code g db uid code secret (30 * b + r) dd =
        (.error .invalidCode, db)) := by
  refine ⟨?_, rfl, ?_, ?_⟩
  · intro g db uid code secret ts dd e db' h
    exact validate_error_db g db uid code secret ts dd e db' h
  · intro g db uid code secret ds b r dd tf hdec hb hr0 hr1 hub hf hex
    obtain ⟨s, hs, hmatch, hle⟩ := hex
    rw [validate_window g db uid code secret ds b r dd hdec hb hr0 hr1 hub, hf]
    cases dd with
    | true =>
      rw [show windowOf true b = [b] from rfl] at hs ⊢
      simp only [List.mem_singleton] at hs
      subst hs
      simp only [List.find?, beq_iff_eq.mpr hmatch]
      rw [if_neg (by omega)]
    | false =>
      rw [show windowOf false b = [b - 1, b, b + 1] from rfl] at hs ⊢
      simp only [List.mem_cons, List.not_mem_nil, or_false] at hs
      simp only [List.find?]
      by_cases m1 : g ds (b - 1).toNat = code
      · simp only [beq_iff_eq.mpr m1]
        have hbound : b - 1 ≤ tf.last_used := by
          rcases hs with h | h | h <;> omega
        rw [if_neg (by omega)]
      · simp only [beq_eq_false_iff_ne.mpr m1]
        by_cases m2 : g ds b.toNat = code
        · simp only [beq_iff_eq.mpr m2]
          have hbound : b ≤ tf.last_used := by
            rcases hs with h | h | h
            · exact absurd hmatch (h ▸ m1)
            · omega
            · omega
          rw [if_neg (by omega)]
        · simp only [beq_eq_false_iff_ne.mpr m2]
          by_cases m3 : g ds (b + 1).toNat = code
          · simp only [beq_iff_eq.mpr m3]
            have hbound : b + 1 ≤ tf.last_used := by
              rcases hs with h | h | h
              · exact absurd hmatch (h ▸ m1)
              · exact absurd hmatch (h ▸ m2)
              · omega
            rw [if_neg (by omega)]
          · rcases hs with h | h | h
            · exact absurd hmatch (h ▸ m1)
            · exact absurd hmatch (h ▸ m2)
            · exact absurd hmatch (h ▸ m3)
  · intro g db uid code secret ds b r dd hdec hb hr0 hr1 hub hall
    rw [validate_window g db uid code secret ds b r dd hdec hb hr0 hr1 hub]
    cases dd with
    | true =>
      rw [show windowOf true b = [b] from rfl] at hall ⊢
      have m0 := hall b (by simp)
      simp only [List.find?, beq_eq_false_iff_ne.mpr m0]
    | false =>
      rw [show windowOf false b = [b - 1, b, b + 1] from rfl] at hall ⊢
      have m1 := hall (b - 1) (by simp)
      have m2 := hall b (by simp)
      have m3 := hall (b + 1) (by simp)
      simp only [List.find?, beq_eq_false_iff_ne.mpr m1, beq_eq_false_iff_ne.mpr m2,
        beq_eq_false_iff_ne.mpr m3]

/-- C2 witness: a stale matching code (step 100 against `last_used = 200`) is
rejected as replayed; a code matching nowhere is rejected as invalid; both
leave the store unchanged and surface the same message. -/
theorem c2_rejection_outcomes_witness :
    ([⟨"u", 0, true, "AAAAAAAAAAAAAAAAAAAAAAAAAAAAAAAA", 200⟩] :
      List TwoFactor) = [⟨"u", 0, true, "AAAAAAAAAAAAAAAAAAAAAAAAAAAAAAAA", 200⟩] ∧
    surfacedMessage .replayedCode = surfacedMessage .invalidCode ∧
    validate_totp_code (fun _ s => toString s)
      [⟨"u", 0, true, "AAAAAAAAAAAAAAAAAAAAAAAAAAAAAAAA", 200⟩] "u" "100"
      "AAAAAAAAAAAAAAAAAAAAAAAAAAAAAAAA" (30 * 100 + 0) false =
      (.error .replayedCode, [⟨"u", 0, true, "AAAAAAAAAAAAAAAAAAAAAAAAAAAAAAAA", 200⟩]) ∧
    validate_totp_code (fun _ s => toString s)
      [⟨"u", 0, true, "AAAAAAAAAAAAAAAAAAAAAAAAAAAAAAAA", 200⟩] "u" "x"
      "AAAAAAAAAAAAAAAAAAAAAAAAAAAAAAAA" (30 * 100 + 0) false =
      (.error .invalidCode, [⟨"u", 0, true, "AAAAAAAAAAAAAAAAAAAAAAAAAAAAAAAA", 200⟩]) := by
  refine ⟨?_, c2_rejection_outcomes.2.1, ?_, ?_⟩
  · exact c2_rejection_outcomes.1 (fun _ s => toString s)
      [⟨"u", 0, true, "AAAAAAAAAAAAAAAAAAAAAAAAAAAAAAAA", 200⟩] "u" "x"
      "AAAAAAAAAAAAAAAAAAAAAAAAAAAAAAAA" 3000 false .invalidCode
      [⟨"u", 0, true, "AAAAAAAAAAAAAAAAAAAAAAAAAAAAAAAA", 200⟩] (by decide)
  · exact c2_rejection_outcomes.2.2.1 (fun _ s => toString s)
      [⟨"u", 0, true, "AAAAAAAAAAAAAAAAAAAAAAAAAAAAAAAA", 200⟩] "u" "100"
      "AAAAAAAAAAAAAAAAAAAAAAAAAAAAAAAA" (List.replicate 20 0) 100 0 false
      ⟨"u", 0, true, "AAAAAAAAAAAAAAAAAAAAAAAAAAAAAAAA", 200⟩
      (by decide) (by decide) (by decide) (by decide) (by decide) (by decide)
      ⟨100, by decide, by decide, by decide⟩
  · exact c2_rejection_outcomes.2.2.2 (fun _ s => toString s)
      [⟨"u", 0, true, "AAAAAAAAAAAAAAAAAAAAAAAAAAAAAAAA", 200⟩] "u" "x"
      "AAAAAAAAAAAAAAAAAAAAAAAAAAAAAAAA" (List.replicate 20 0) 100 0 false
      (by decide) (by decide) (by decide) (by decide) (by decide) (by decide)

/-- C3: scan order — the coded offset ranges are the ascending lists `[0]`
(drift disabled) and `[-1, 0, 1]` (drift enabled); the verification outcome
is decided by the first window step whose generated code equals the
submitted code; and when the most-past step's code matches and qualifies, it
is the one accepted and recorded, regardless of any later match. -/
theorem c3_scan_order :
    stepOffsets 0 = [0] ∧ stepOffsets 1 = [-1, 0, 1] ∧
    (∀ (g : List Nat → Nat → String) (db : List TwoFactor) (uid code secret : String)
      (ds : List Nat) (b r : Int) (dd : Bool),
      base32decode secret = some ds → 2 ≤ b → 0 ≤ r → r < 30 → 30 * b + r < 2 ^ 63 →
      validate_totp_code g db uid code secret (30 * b + r) dd =
        (match (windowOf dd b).find? (fun s => g ds s.toNat == code) with
        | none => (.error .invalidCode, db)
        | some s =>
          match findByUserAndType db uid authenticatorType with
          | some tf =>
            if tf.last_used < s then (.ok s, saveTF db { tf with last_used := s })
            else (.error .replayedCode, db)
          | none =>
            if (TwoFactor.new uid authenticatorType secret).last_used < s then
              (.ok s, saveTF db { TwoFactor.new uid authenticatorType secret with
                last_used := s })
            else (.error .replayedCode, db))) ∧
    (∀ (g : List Nat → Nat → String) (db : List TwoFactor) (uid secret : String)
      (ds : List Nat) (b r : Int) (tf : TwoFactor),
      base32decode secret = some ds → 2 ≤ b → 0 ≤ r → r < 30 → 30 * b + r < 2 ^ 63 →
      findByUserAndType db uid authenticatorType = some tf →
      tf.last_used < b - 1 →
      ∀ code, g ds (b - 1).toNat = code →
      validate_totp_code g db uid code secret (30 * b + r) false =
        (.ok (b - 1), saveTF db { tf with last_used := b - 1 })) := by
  refine ⟨by decide, by decide, ?_, ?_⟩
  · intro g db uid code secret ds b r dd hdec hb hr0 hr1 hub
    exact validate_window g db uid code secret ds b r dd hdec hb hr0 hr1 hub
  · intro g db uid secret ds b r tf hdec hb hr0 hr1 hub hf hlt code hmatch
    rw [validate_window g db uid code secret ds b r false hdec hb hr0 hr1 hub, hf]
    rw [show windowOf false b = [b - 1, b, b + 1] from rfl]
    simp only [List.find?, beq_iff_eq.mpr hmatch]
    rw [if_pos (by omega)]

/-- C3 witness: with a generator whose codes for steps 99 and 100 coincide
(a deliberate collision), the submitted code matches at offsets −1 and 0;
the scan accepts the most-past step 99 and records it. -/
theorem c3_scan_order_witness :
    stepOffsets 0 = [0] ∧ stepOffsets 1 = [-1, 0, 1] ∧
    validate_totp_code (fun _ s => if s = 99 ∨ s = 100 then "X" else toString s)
      [⟨"u", 0, true, "AAAAAAAAAAAAAAAAAAAAAAAAAAAAAAAA", 50⟩] "u" "X"
      "AAAAAAAAAAAAAAAAAAAAAAAAAAAAAAAA" (30 * 100 + 0) false =
      (match (windowOf false 100).find?
          (fun s => (fun _ s => if s = 99 ∨ s = 100 then "X" else toString s)
            (List.replicate 20 (0 : Nat)) s.toNat == "X") with
      | none => (.error .invalidCode,
          [⟨"u", 0, true, "AAAAAAAAAAAAAAAAAAAAAAAAAAAAAAAA", 50⟩])
      | some s =>
        match findByUserAndType [⟨"u", 0, true, "AAAAAAAAAAAAAAAAAAAAAAAAAAAAAAAA", 50⟩]
            "u" authenticatorType with
        | some tf =>
          if tf.last_used < s then
            (.ok s, saveTF [⟨"u", 0, true, "AAAAAAAAAAAAAAAAAAAAAAAAAAAAAAAA", 50⟩]
              { tf with last_used := s })
          else (.error .replayedCode,
            [⟨"u", 0, true, "AAAAAAAAAAAAAAAAAAAAAAAAAAAAAAAA", 50⟩])
        | none =>
          if (TwoFactor.new "u" authenticatorType
              "AAAAAAAAAAAAAAAAAAAAAAAAAAAAAAAA").last_used < s then
            (.ok s, saveTF [⟨"u", 0, true, "AAAAAAAAAAAAAAAAAAAAAAAAAAAAAAAA", 50⟩]
              { TwoFactor.new "u" authenticatorType
                  "AAAAAAAAAAAAAAAAAAAAAAAAAAAAAAAA" with last_used := s })
          else (.error .replayedCode,
            [⟨"u", 0, true, "AAAAAAAAAAAAAAAAAAAAAAAAAAAAAAAA", 50⟩])) ∧
    validate_totp_code (fun _ s => if s = 99 ∨ s = 100 then "X" else toString s)
      [⟨"u", 0, true, "AAAAAAAAAAAAAAAAAAAAAAAAAAAAAAAA", 50⟩] "u" "X"
      "AAAAAAAAAAAAAAAAAAAAAAAAAAAAAAAA" (30 * 100 + 0) false =
      (.ok (100 - 1), saveTF [⟨"u", 0, true, "AAAAAAAAAAAAAAAAAAAAAAAAAAAAAAAA", 50⟩]
        { (⟨"u", 0, true, "AAAAAAAAAAAAAAAAAAAAAAAAAAAAAAAA", 50⟩ : TwoFactor) with
          last_used := 100 - 1 }) := by
  refine ⟨c3_scan_order.1, c3_scan_order.2.1, ?_, ?_⟩
  · exact c3_scan_order.2.2.1 (fun _ s => if s = 99 ∨ s = 100 then "X" else toString s)
      [⟨"u", 0, true, "AAAAAAAAAAAAAAAAAAAAAAAAAAAAAAAA", 50⟩] "u" "X"
      "AAAAAAAAAAAAAAAAAAAAAAAAAAAAAAAA" (List.replicate 20 0) 100 0 false
      (by decide) (by decide) (by decide) (by decide) (by decide)
  · exact c3_scan_order.2.2.2 (fun _ s => if s = 99 ∨ s = 100 then "X" else toString s)
      [⟨"u", 0, true, "AAAAAAAAAAAAAAAAAAAAAAAAAAAAAAAA", 50⟩] "u"
      "AAAAAAAAAAAAAAAAAAAAAAAAAAAAAAAA" (List.replicate 20 0) 100 0
      ⟨"u", 0, true, "AAAAAAAAAAAAAAAAAAAAAAAAAAAAAAAA", 50⟩
      (by decide) (by decide) (by decide) (by decide) (by decide) (by decide) (by decide)
      "X" (by decide)

/-- Looking up a key after saving an update of its record yields the update. -/
theorem find_saveTF_update (db : List TwoFactor) (uid : String) (tf : TwoFactor) (s : Int)
    (hf : findByUserAndType db uid authenticatorType = some tf) :
    findByUserAndType (saveTF db { tf with last_used := s }) uid authenticatorType =
      some { tf with last_used := s } := by
  have hk := findByUserAndType_some db uid authenticatorType tf hf
  have hfind2 : findByUserAndType db ({ tf with last_used := s } : TwoFactor).user_id
      ({ tf with last_used := s } : TwoFactor).atype = some tf := by
    show findByUserAndType db tf.user_id tf.atype = some tf
    rw [hk.2.1, hk.2.2]
    exact hf
  have hres := find_saveTF db tf { tf with last_used := s } rfl rfl hfind2
  rw [← hk.2.1, ← hk.2.2]
  exact hres

/-- C1: acceptance over the drift window, for a decodable 20-byte secret and
a generator without collisions among the nearby steps. With drift enabled
(`driftSteps = 1`): the code for the current step `b` is accepted when
`last_used < b`, recording `b`; the codes for `b - 1` and `b + 1` are also
accepted (recording those steps), while the code for `b - 2` is rejected as
invalid. With drift disabled (`driftSteps = 0`): only the current step's code
is accepted, and the adjacent steps' codes are rejected as invalid. The two
drifted acceptances hold only once: re-submitting the same code after its
acceptance is rejected as replayed. -/
theorem c1_drift_window_acceptance (g : List Nat → Nat → String) (db : List TwoFactor)
    (uid secret : String) (ds : List Nat) (b r : Int) (tf : TwoFactor)
    (hdec : base32decode secret = some ds) (hlen : ds.length = 20)
    (hb : 2 ≤ b) (hr0 : 0 ≤ r) (hr1 : r < 30) (hub : 30 * b + r < 2 ^ 63)
    (hf : findByUserAndType db uid authenticatorType = some tf)
    (d1 : codeForStep g ds (b - 1).toNat ≠ codeForStep g ds b.toNat)
    (d2 : codeForStep g ds (b + 1).toNat ≠ codeForStep g ds (b - 1).toNat)
    (d3 : codeForStep g ds (b + 1).toNat ≠ codeForStep g ds b.toNat)
    (d4 : codeForStep g ds (b - 2).toNat ≠ codeForStep g ds (b - 1).toNat)
    (d5 : codeForStep g ds (b - 2).toNat ≠ codeForStep g ds b.toNat)
    (d6 : codeForStep g ds (b - 2).toNat ≠ codeForStep g ds (b + 1).toNat) :
    (tf.last_used < b →
      validate_totp_code g db uid (codeForStep g ds b.toNat) secret (30 * b + r) false =
        (.ok b, saveTF db { tf with last_used := b })) ∧
    (tf.last_used < b - 1 →
      validate_totp_code g db uid (codeForStep g ds (b - 1).toNat) secret
        (30 * b + r) false =
        (.ok (b - 1), saveTF db { tf with last_used := b - 1 })) ∧
    (tf.last_used < b + 1 →
      validate_totp_code g db uid (codeForStep g ds (b + 1).toNat) secret
        (30 * b + r) false =
        (.ok (b + 1), saveTF db { tf with last_used := b + 1 })) ∧
    (validate_totp_code g db uid (codeForStep g ds (b - 2).toNat) secret
      (30 * b + r) false = (.error .invalidCode, db)) ∧
    (tf.last_used < b →
      validate_totp_code g db uid (codeForStep g ds b.toNat) secret (30 * b + r) true =
        (.ok b, saveTF db { tf with last_used := b })) ∧
    (validate_totp_code g db uid (codeForStep g ds (b - 1).toNat) secret
      (30 * b + r) true = (.error .invalidCode, db)) ∧
    (validate_totp_code g db uid (codeForStep g ds (b + 1).toNat) secret
      (30 * b + r) true = (.error .invalidCode, db)) ∧
    (validate_totp_code g (saveTF db { tf with last_used := b - 1 }) uid
        (codeForStep g ds (b - 1).toNat) secret (30 * b + r) false =
      (.error .replayedCode, saveTF db { tf with last_used := b - 1 })) ∧
    (validate_totp_code g (saveTF db { tf with last_used := b + 1 }) uid
        (codeForStep g ds (b + 1).toNat) secret (30 * b + r) false =
      (.error .replayedCode, saveTF db { tf with last_used := b + 1 })) := by
  simp only [codeForStep_eq] at d1 d2 d3 d4 d5 d6 ⊢
  refine ⟨?_, ?_, ?_, ?_, ?_, ?_, ?_, ?_, ?_⟩
  · intro hlt
    rw [validate_window g db uid (g ds b.toNat) secret ds b r false hdec hb hr0 hr1 hub, hf]
    rw [show windowOf false b = [b - 1, b, b + 1] from rfl]
    simp only [List.find?, beq_eq_false_iff_ne.mpr d1, beq_self_eq_true]
    rw [if_pos (by omega)]
  · intro hlt
    rw [validate_window g db uid (g ds (b - 1).toNat) secret ds b r false hdec hb hr0 hr1 hub,
      hf]
    rw [show windowOf false b = [b - 1, b, b + 1] from rfl]
    simp only [List.find?, beq_self_eq_true]
    rw [if_pos (by omega)]
  · intro hlt
    rw [validate_window g db uid (g ds (b + 1).toNat) secret ds b r false hdec hb hr0 hr1 hub,
      hf]
    rw [show windowOf false b = [b - 1, b, b + 1] from rfl]
    simp only [List.find?, beq_eq_false_iff_ne.mpr (Ne.symm d2),
      beq_eq_false_iff_ne.mpr (Ne.symm d3), beq_self_eq_true]
    rw [if_pos (by omega)]
  · rw [validate_window g db uid (g ds (b - 2).toNat) secret ds b r false hdec hb hr0 hr1 hub,
      hf]
    rw [show windowOf false b = [b - 1, b, b + 1] from rfl]
    simp only [List.find?, beq_eq_false_iff_ne.mpr (Ne.symm d4),
      beq_eq_false_iff_ne.mpr (Ne.symm d5), beq_eq_false_iff_ne.mpr (Ne.symm d6)]
  · intro hlt
    rw [validate_window g db uid (g ds b.toNat) secret ds b r true hdec hb hr0 hr1 hub, hf]
    rw [show windowOf true b = [b] from rfl]
    simp only [List.find?, beq_self_eq_true]
    rw [if_pos (by omega)]
  · rw [validate_window g db uid (g ds (b - 1).toNat) secret ds b r true hdec hb hr0 hr1 hub,
      hf]
    rw [show windowOf true b = [b] from rfl]
    simp only [List.find?, beq_eq_false_iff_ne.mpr (Ne.symm d1)]
  · rw [validate_window g db uid (g ds (b + 1).toNat) secret ds b r true hdec hb hr0 hr1 hub,
      hf]
    rw [show windowOf true b = [b] from rfl]
    simp only [List.find?, beq_eq_false_iff_ne.mpr (Ne.symm d3)]
  · have hf2 := find_saveTF_update db uid tf (b - 1) hf
    rw [validate_window g (saveTF db { tf with last_used := b - 1 }) uid
      (g ds (b - 1).toNat) secret ds b r false hdec hb hr0 hr1 hub, hf2]
    rw [show windowOf false b = [b - 1, b, b + 1] from rfl]
    simp only [List.find?, beq_self_eq_true]
    rw [if_neg (by omega)]
  · have hf2 := find_saveTF_update db uid tf (b + 1) hf
    rw [validate_window g (saveTF db { tf with last_used := b + 1 }) uid
      (g ds (b + 1).toNat) secret ds b r false hdec hb hr0 hr1 hub, hf2]
    rw [show windowOf false b = [b - 1, b, b + 1] from rfl]
    simp only [List.find?, beq_eq_false_iff_ne.mpr (Ne.symm d2),
      beq_eq_false_iff_ne.mpr (Ne.symm d3), beq_self_eq_true]
    rw [if_neg (by omega)]

/-- C1 witness: concrete drift-window acceptances and rejections at base
step 100 with `last_used = 50`, using a collision-free generator. -/
theorem c1_drift_window_acceptance_witness :
    (validate_totp_code (fun _ s => toString s)
      [⟨"u", 0, true, "AAAAAAAAAAAAAAAAAAAAAAAAAAAAAAAA", 50⟩] "u"
      (codeForStep (fun _ s => toString s) (List.replicate 20 0) 100)
      "AAAAAAAAAAAAAAAAAAAAAAAAAAAAAAAA" (30 * 100 + 0) false =
      (.ok 100, saveTF [⟨"u", 0, true, "AAAAAAAAAAAAAAAAAAAAAAAAAAAAAAAA", 50⟩]
        { (⟨"u", 0, true, "AAAAAAAAAAAAAAAAAAAAAAAAAAAAAAAA", 50⟩ : TwoFactor) with
          last_used := 100 })) ∧
    (validate_totp_code (fun _ s => toString s)
      [⟨"u", 0, true, "AAAAAAAAAAAAAAAAAAAAAAAAAAAAAAAA", 50⟩] "u"
      (codeForStep (fun _ s => toString s) (List.replicate 20 0) 99)
      "AAAAAAAAAAAAAAAAAAAAAAAAAAAAAAAA" (30 * 100 + 0) false =
      (.ok 99, saveTF [⟨"u", 0, true, "AAAAAAAAAAAAAAAAAAAAAAAAAAAAAAAA", 50⟩]
        { (⟨"u", 0, true, "AAAAAAAAAAAAAAAAAAAAAAAAAAAAAAAA", 50⟩ : TwoFactor) with
          last_used := 99 })) ∧
    (validate_totp_code (fun _ s => toString s)
      [⟨"u", 0, true, "AAAAAAAAAAAAAAAAAAAAAAAAAAAAAAAA", 50⟩] "u"
      (codeForStep (fun _ s => toString s) (List.replicate 20 0) 101)
      "AAAAAAAAAAAAAAAAAAAAAAAAAAAAAAAA" (30 * 100 + 0) false =
      (.ok 101, saveTF [⟨"u", 0, true, "AAAAAAAAAAAAAAAAAAAAAAAAAAAAAAAA", 50⟩]
        { (⟨"u", 0, true, "AAAAAAAAAAAAAAAAAAAAAAAAAAAAAAAA", 50⟩ : TwoFactor) with
          last_used := 101 })) ∧
    (validate_totp_code (fun _ s => toString s)
      [⟨"u", 0, true, "AAAAAAAAAAAAAAAAAAAAAAAAAAAAAAAA", 50⟩] "u"
      (codeForStep (fun _ s => toString s) (List.replicate 20 0) 98)
      "AAAAAAAAAAAAAAAAAAAAAAAAAAAAAAAA" (30 * 100 + 0) false =
      (.error .invalidCode, [⟨"u", 0, true, "AAAAAAAAAAAAAAAAAAAAAAAAAAAAAAAA", 50⟩])) ∧
    (validate_totp_code (fun _ s => toString s)
      [⟨"u", 0, true, "AAAAAAAAAAAAAAAAAAAAAAAAAAAAAAAA", 50⟩] "u"
      (codeForStep (fun _ s => toString s) (List.replicate 20 0) 100)
      "AAAAAAAAAAAAAAAAAAAAAAAAAAAAAAAA" (30 * 100 + 0) true =
      (.ok 100, saveTF [⟨"u", 0, true, "AAAAAAAAAAAAAAAAAAAAAAAAAAAAAAAA", 50⟩]
        { (⟨"u", 0, true, "AAAAAAAAAAAAAAAAAAAAAAAAAAAAAAAA", 50⟩ : TwoFactor) with
          last_used := 100 })) ∧
    (validate_totp_code (fun _ s => toString s)
      [⟨"u", 0, true, "AAAAAAAAAAAAAAAAAAAAAAAAAAAAAAAA", 50⟩] "u"
      (codeForStep (fun _ s => toString s) (List.replicate 20 0) 99)
      "AAAAAAAAAAAAAAAAAAAAAAAAAAAAAAAA" (30 * 100 + 0) true =
      (.error .invalidCode, [⟨"u", 0, true, "AAAAAAAAAAAAAAAAAAAAAAAAAAAAAAAA", 50⟩])) ∧
    (validate_totp_code (fun _ s => toString s)
      [⟨"u", 0, true, "AAAAAAAAAAAAAAAAAAAAAAAAAAAAAAAA", 50⟩] "u"
      (codeForStep (fun _ s => toString s) (List.replicate 20 0) 101)
      "AAAAAAAAAAAAAAAAAAAAAAAAAAAAAAAA" (30 * 100 + 0) true =
      (.error .invalidCode, [⟨"u", 0, true, "AAAAAAAAAAAAAAAAAAAAAAAAAAAAAAAA", 50⟩])) ∧
    (validate_totp_code (fun _ s => toString s)
      (saveTF [⟨"u", 0, true, "AAAAAAAAAAAAAAAAAAAAAAAAAAAAAAAA", 50⟩]
        { (⟨"u", 0, true, "AAAAAAAAAAAAAAAAAAAAAAAAAAAAAAAA", 50⟩ : TwoFactor) with
          last_used := 99 }) "u"
      (codeForStep (fun _ s => toString s) (List.replicate 20 0) 99)
      "AAAAAAAAAAAAAAAAAAAAAAAAAAAAAAAA" (30 * 100 + 0) false =
      (.error .replayedCode,
        saveTF [⟨"u", 0, true, "AAAAAAAAAAAAAAAAAAAAAAAAAAAAAAAA", 50⟩]
          { (⟨"u", 0, true, "AAAAAAAAAAAAAAAAAAAAAAAAAAAAAAAA", 50⟩ : TwoFactor) with
            last_used := 99 })) ∧
    (validate_totp_code (fun _ s => toString s)
      (saveTF [⟨"u", 0, true, "AAAAAAAAAAAAAAAAAAAAAAAAAAAAAAAA", 50⟩]
        { (⟨"u", 0, true, "AAAAAAAAAAAAAAAAAAAAAAAAAAAAAAAA", 50⟩ : TwoFactor) with
          last_used := 101 }) "u"
      (codeForStep (fun _ s => toString s) (List.replicate 20 0) 101)
      "AAAAAAAAAAAAAAAAAAAAAAAAAAAAAAAA" (30 * 100 + 0) false =
      (.error .replayedCode,
        saveTF [⟨"u", 0, true, "AAAAAAAAAAAAAAAAAAAAAAAAAAAAAAAA", 50⟩]
          { (⟨"u", 0, true, "AAAAAAAAAAAAAAAAAAAAAAAAAAAAAAAA", 50⟩ : TwoFactor) with
            last_used := 101 })) := by
  have h := c1_drift_window_acceptance (fun _ s => toString s)
    [⟨"u", 0, true, "AAAAAAAAAAAAAAAAAAAAAAAAAAAAAAAA", 50⟩] "u"
    "AAAAAAAAAAAAAAAAAAAAAAAAAAAAAAAA" (List.replicate 20 0) 100 0
    ⟨"u", 0, true, "AAAAAAAAAAAAAAAAAAAAAAAAAAAAAAAA", 50⟩
    (by decide) (by decide) (by decide) (by decide) (by decide) (by decide) (by decide)
    (by decide) (by decide) (by decide) (by decide) (by decide) (by decide)
  exact ⟨h.1 (by decide), h.2.1 (by decide), h.2.2.1 (by decide), h.2.2.2.1,
    h.2.2.2.2.1 (by decide), h.2.2.2.2.2.1, h.2.2.2.2.2.2.1, h.2.2.2.2.2.2.2.1,
    h.2.2.2.2.2.2.2.2⟩

/-- C10: never accept a consumed step — whenever every window step whose
code equals the submitted code is at most the record's `last_used`, the call
rejects (as replayed if such a match exists in the window, as invalid
otherwise) and the store is unchanged; and concretely, after an acceptance at
drift offset +1 records the future step `b + 1`, the genuine code for the
next 30-second window (base step `b + 1`) is rejected as replayed when
submitted during that window. -/
theorem c10_never_accept_consumed :
    (∀ (g : List Nat → Nat → String) (db : List TwoFactor) (uid code secret : String)
      (ds : List Nat) (b r : Int) (dd : Bool) (tf : TwoFactor),
      base32decode secret = some ds → 2 ≤ b → 0 ≤ r → r < 30 → 30 * b + r < 2 ^ 63 →
      findByUserAndType db uid authenticatorType = some tf →
      (∀ s, s ∈ windowOf dd b → g ds s.toNat = code → s ≤ tf.last_used) →
      (validate_totp_code g db uid code secret (30 * b + r) dd =
          (.error .replayedCode, db) ∨
        validate_totp_code g db uid code secret (30 * b + r) dd =
          (.error .invalidCode, db))) ∧
    (∀ (g : List Nat → Nat → String) (db : List TwoFactor) (uid secret : String)
      (ds : List Nat) (b r : Int) (tf : TwoFactor),
      base32decode secret = some ds → 2 ≤ b → 0 ≤ r → r < 30 →
      30 * (b + 1) + r < 2 ^ 63 →
      findByUserAndType db uid authenticatorType = some tf →
      tf.last_used < b + 1 →
      codeForStep g ds (b + 1).toNat ≠ codeForStep g ds (b - 1).toNat →
      codeForStep g ds (b + 1).toNat ≠ codeForStep g ds b.toNat →
      validate_totp_code g db uid (codeForStep g ds (b + 1).toNat) secret
          (30 * b + r) false =
        (.ok (b + 1), saveTF db { tf with last_used := b + 1 }) ∧
      validate_totp_code g (saveTF db { tf with last_used := b + 1 }) uid
          (codeForStep g ds (b + 1).toNat) secret (30 * (b + 1) + r) false =
        (.error .replayedCode, saveTF db { tf with last_used := b + 1 })) := by
  constructor
  · intro g db uid code secret ds b r dd tf hdec hb hr0 hr1 hub hf hall
    rw [validate_window g db uid code secret ds b r dd hdec hb hr0 hr1 hub, hf]
    cases hfind : (windowOf dd b).find? (fun s => g ds s.toNat == code) with
    | none =>
      right
      rfl
    | some s0 =>
      left
      have hmem := List.mem_of_find?_eq_some hfind
      have hps := List.find?_some hfind
      have hmatch : g ds s0.toNat = code := by
        simpa using hps
      have hle := hall s0 hmem hmatch
      simp only []
      rw [if_neg (by omega)]
  · intro g db uid secret ds b r tf hdec hb hr0 hr1 hub hf hlt dA dB
    simp only [codeForStep_eq] at dA dB ⊢
    constructor
    · rw [validate_window g db uid (g ds (b + 1).toNat) secret ds b r false hdec hb hr0 hr1
        (by omega), hf]
      rw [show windowOf false b = [b - 1, b, b + 1] from rfl]
      simp only [List.find?, beq_eq_false_iff_ne.mpr (Ne.symm dA),
        beq_eq_false_iff_ne.mpr (Ne.symm dB), beq_self_eq_true]
      rw [if_pos (by omega)]
    · have hf2 := find_saveTF_update db uid tf (b + 1) hf
      rw [validate_window g (saveTF db { tf with last_used := b + 1 }) uid
        (g ds (b + 1).toNat) secret ds (b + 1) r false hdec (by omega) hr0 hr1 hub, hf2]
      rw [show windowOf false (b + 1) = [b + 1 - 1, b + 1, b + 1 + 1] from rfl]
      have e3 : b + 1 - 1 = b := by omega
      rw [e3]
      simp only [List.find?, beq_eq_false_iff_ne.mpr (Ne.symm dB), beq_self_eq_true]
      rw [if_neg (by omega)]

/-- C10 witness: with `last_used = 200`, the code for step 100 (all of whose
window matches are consumed) is rejected with the store unchanged; and after
an acceptance at offset +1 records step 101, the genuine code for the next
window is rejected as replayed. -/
theorem c10_never_accept_consumed_witness :
    (validate_totp_code (fun _ s => toString s)
        [⟨"u", 0, true, "AAAAAAAAAAAAAAAAAAAAAAAAAAAAAAAA", 200⟩] "u" "100"
        "AAAAAAAAAAAAAAAAAAAAAAAAAAAAAAAA" (30 * 100 + 0) false =
        (.error .replayedCode, [⟨"u", 0, true, "AAAAAAAAAAAAAAAAAAAAAAAAAAAAAAAA", 200⟩]) ∨
      validate_totp_code (fun _ s => toString s)
        [⟨"u", 0, true, "AAAAAAAAAAAAAAAAAAAAAAAAAAAAAAAA", 200⟩] "u" "100"
        "AAAAAAAAAAAAAAAAAAAAAAAAAAAAAAAA" (30 * 100 + 0) false =
        (.error .invalidCode, [⟨"u", 0, true, "AAAAAAAAAAAAAAAAAAAAAAAAAAAAAAAA", 200⟩])) ∧
    validate_totp_code (fun _ s => toString s)
      [⟨"u", 0, true, "AAAAAAAAAAAAAAAAAAAAAAAAAAAAAAAA", 50⟩] "u"
      (codeForStep (fun _ s => toString s) (List.replicate 20 0) 101)
      "AAAAAAAAAAAAAAAAAAAAAAAAAAAAAAAA" (30 * 100 + 0) false =
      (.ok 101, saveTF [⟨"u", 0, true, "AAAAAAAAAAAAAAAAAAAAAAAAAAAAAAAA", 50⟩]
        { (⟨"u", 0, true, "AAAAAAAAAAAAAAAAAAAAAAAAAAAAAAAA", 50⟩ : TwoFactor) with
          last_used := 101 }) ∧
    validate_totp_code (fun _ s => toString s)
      (saveTF [⟨"u", 0, true, "AAAAAAAAAAAAAAAAAAAAAAAAAAAAAAAA", 50⟩]
        { (⟨"u", 0, true, "AAAAAAAAAAAAAAAAAAAAAAAAAAAAAAAA", 50⟩ : TwoFactor) with
          last_used := 101 }) "u"
      (codeForStep (fun _ s => toString s) (List.replicate 20 0) 101)
      "AAAAAAAAAAAAAAAAAAAAAAAAAAAAAAAA" (30 * (100 + 1) + 0) false =
      (.error .replayedCode,
        saveTF [⟨"u", 0, true, "AAAAAAAAAAAAAAAAAAAAAAAAAAAAAAAA", 50⟩]
          { (⟨"u", 0, true, "AAAAAAAAAAAAAAAAAAAAAAAAAAAAAAAA", 50⟩ : TwoFactor) with
            last_used := 101 }) := by
  constructor
  · exact c10_never_accept_consumed.1 (fun _ s => toString s)
      [⟨"u", 0, true, "AAAAAAAAAAAAAAAAAAAAAAAAAAAAAAAA", 200⟩] "u" "100"
      "AAAAAAAAAAAAAAAAAAAAAAAAAAAAAAAA" (List.replicate 20 0) 100 0 false
      ⟨"u", 0, true, "AAAAAAAAAAAAAAAAAAAAAAAAAAAAAAAA", 200⟩
      (by decide) (by decide) (by decide) (by decide) (by decide) (by decide) (by decide)
  · exact c10_never_accept_consumed.2 (fun _ s => toString s)
      [⟨"u", 0, true, "AAAAAAAAAAAAAAAAAAAAAAAAAAAAAAAA", 50⟩] "u"
      "AAAAAAAAAAAAAAAAAAAAAAAAAAAAAAAA" (List.replicate 20 0) 100 0
      ⟨"u", 0, true, "AAAAAAAAAAAAAAAAAAAAAAAAAAAAAAAA", 50⟩
      (by decide) (by decide) (by decide) (by decide) (by decide) (by decide) (by decide)
      (by decide) (by decide)
